import Mathlib

/-
Verification development for the Dialog_Char repository.

The repository trains a generator/discriminator pair on utterance/response
dialogue data.  The definitions below are shallow embeddings of the Python
source:
  * src/module/data.py   (Dataset.load_data, Dataset.__getitem__, load_dataloader)
  * src/module/train.py  (Trainer.get_losses, Trainer.train, Trainer.train_epoch,
                          Trainer.valid_epoch)
  * src/setup.py         (process_dialogue_data record construction)
Machine floats are modelled by rationals; torch tensors over a batch are
modelled by functions out of Fin; the value of torch.log at 0 (namely
-inf, so that -log 0 = +inf) is modelled in EReal.  The name resolution
that train, train_epoch and valid_epoch depend on is modelled by tables
transcribed from the class bodies: the instance attributes assigned in
the two __init__ methods, the methods defined on the classes, the locals
bound in train_epoch, and the record keys zipped into each epoch's
record dict.
-/

/-! ## Data side: src/module/data.py and src/setup.py -/

/-- String constant for the pretrain operating mode. -/
def pretrainMode : String := "pretrain"

/-- String constant for the train split name. -/
def trainSplit : String := "train"

/-- String constant for the valid split name. -/
def validSplit : String := "valid"

/-- Embedding of `Dataset.load_data` (src/module/data.py).  The file contents
(the parsed JSON list) are passed in as `fileData`; the function returns the
slice the Python code returns: in pretrain mode the train split is
`data[:threshold]`, the valid split is `data[threshold:]`, and in every other
case the data is returned whole. -/
def load_data {α : Type} (mode : String) (threshold : Nat) (fileData : List α)
    (split : String) : List α :=
  if mode = pretrainMode ∧ split = trainSplit then fileData.take threshold
  else if mode = pretrainMode ∧ split = validSplit then fileData.drop threshold
  else fileData

/-- A JSON object with string fields, modelled as an association list. -/
def JsonRecord : Type := List (String × String)

/-- Embedding of the record constructed by `process_dialogue_data`
(src/setup.py): `processed.append({'x': uttr, 'y': resp})`. The same keys
are produced by `split_dialog` for the character data. -/
def mkDialogueRecord (uttr resp : String) : JsonRecord :=
  [(("x"), uttr), (("y"), resp)]

/-- Field access on a JSON object; `none` models a Python `KeyError`. -/
def lookupField (rec : JsonRecord) (key : String) : Option String :=
  (rec.find? (fun p => p.1 == key)).map (fun p => p.2)

/-- Embedding of `Dataset.__getitem__` (src/module/data.py) in the branch
taken outside discriminator pretraining: it reads `self.data[idx]['uttr']`
and `self.data[idx]['resp']`; `none` models the `KeyError` raised when a
field is absent. -/
def datasetGetItem (rec : JsonRecord) : Option (String × String) :=
  match lookupField rec ("uttr"), lookupField rec ("resp") with
  | some u, some r => some (u, r)
  | _, _ => none

/-- Python truthiness of a string: every non-empty string is truthy. -/
def pyTruthy (s : String) : Bool := !(s == "")

/-- Embedding of the shuffle flag computed by `load_dataloader`
(src/module/data.py): `_shuffle = True; if config.mode: _shuffle = False`. -/
def load_dataloader_shuffle (mode : String) : Bool :=
  if pyTruthy mode then false else true

/-- Modelled from the spec words of C9 (not from the source): shuffling
enabled exactly in plain training mode. Used only to compare the spec's
sentence with `load_dataloader_shuffle`. -/
def spec_shuffle (mode : String) : Bool := mode == trainSplit

/-! ## Loss coupler: Trainer.get_losses in src/module/train.py

The generator output for the batch is `pred` (one text per utterance) and the
ground truth is `resp`; the discriminator input is their concatenation
`pred + resp`, with labels `cat(zeros(B), ones(B))`, all three index-shuffled
by one shared random permutation `d_indice`.  The discriminator itself is
abstracted as a per-example score function on the (tokenized) inputs. -/

/-- Embedding of concatenating two per-half batch tensors along dim 0, as in
`pred + resp` and `torch.cat((torch.zeros(B), torch.ones(B)))`: the first `B`
positions come from the first argument, the rest from the second. -/
def dConcat {α : Type} (B : Nat) (first second : Fin B → α) :
    Fin (2 * B) → α :=
  fun i => if h : (i : Nat) < B then first ⟨i, h⟩
    else second ⟨(i : Nat) - B, by omega⟩

/-- The discriminator label vector of `get_losses`:
`torch.cat((torch.zeros(batch_size), torch.ones(batch_size)), dim=0)`,
so generated (fake) examples carry label 0 and ground-truth (real) examples
carry label 1. -/
def dLabels (B : Nat) : Fin (2 * B) → Nat :=
  dConcat B (fun _ => 0) (fun _ => 1)

/-- The fixed decision threshold `0.5` in `get_losses`. -/
def dThreshold : ℚ := 1 / 2

/-- The multiset of (input ids, attention mask, label) triples of a
discriminator batch; used to state that the joint shuffle is a bijection. -/
def pairsMultiset {α β : Type} (B : Nat) (ids : Fin (2 * B) → α)
    (masks : Fin (2 * B) → β) (labels : Fin (2 * B) → Nat) :
    Multiset (α × β × Nat) :=
  Finset.univ.val.map (fun i => (ids i, masks i, labels i))

/-- Embedding of `pos = d_outs.logit[d_labels == 1] > 0.5` followed by
`pos.sum()` in `get_losses`: the number of positions of the shuffled batch
whose (shuffled) label is 1 and whose discriminator score exceeds the
threshold.  `σ` is the random permutation `d_indice` (`new[i] = old[σ i]`),
and `score` is the discriminator's per-example output. -/
def posCount {α : Type} (B : Nat) (fake real : Fin B → α) (score : α → ℚ)
    (σ : Equiv.Perm (Fin (2 * B))) : Nat :=
  (Finset.univ.filter (fun i : Fin (2 * B) =>
    dLabels B (σ i) = 1 ∧ dThreshold < score (dConcat B fake real (σ i)))).card

/-- The number of ground-truth (real-labeled) examples of the batch whose
discriminator score exceeds the threshold. -/
def realAboveCount {α : Type} (B : Nat) (real : Fin B → α) (score : α → ℚ) :
    Nat :=
  (Finset.univ.filter (fun j : Fin B => dThreshold < score (real j))).card

/-- The number of generated (fake-labeled) examples of the batch whose
discriminator score exceeds the threshold. -/
def fakeAboveCount {α : Type} (B : Nat) (fake : Fin B → α) (score : α → ℚ) :
    Nat :=
  (Finset.univ.filter (fun j : Fin B => dThreshold < score (fake j))).card

/-- Embedding of `-torch.log(x)` on a non-negative rational tensor value:
torch evaluates `log 0` to `-inf` without raising, so `-log 0` is `+inf`,
modelled as the top element of the extended reals. -/
noncomputable def negLogTorch (x : ℚ) : EReal :=
  if x = 0 then ⊤ else (((-Real.log ((x : ℝ))) : ℝ) : EReal)

/-- Embedding of the generator loss returned by `get_losses`:
`g_loss = -torch.log(pos.sum() / batch_size)`. -/
noncomputable def gLossCode {α : Type} (B : Nat) (fake real : Fin B → α)
    (score : α → ℚ) (σ : Equiv.Perm (Fin (2 * B))) : EReal :=
  negLogTorch ((posCount B fake real score σ : ℚ) / (B : ℚ))

/-- Modelled from the spec words of C1 (not from the source): the generator
loss as the claim states it, `-log(k / B)` with `k` the number of fake
(generator-produced) examples whose score exceeds the threshold.  Used only
to compare the claim against `gLossCode`. -/
noncomputable def gLossClaim {α : Type} (B : Nat) (fake : Fin B → α)
    (score : α → ℚ) : EReal :=
  negLogTorch ((fakeAboveCount B fake score : ℚ) / (B : ℚ))

/-- Concrete one-element batch of tokenized generated responses (ids as
naturals) used as evaluation input. -/
def cFake : Fin 1 → Nat := fun _ => 0

/-- Concrete one-element batch of tokenized ground-truth responses. -/
def cReal : Fin 1 → Nat := fun _ => 1

/-- Concrete discriminator score table: the generated example scores 9/10
(above the 0.5 threshold), the ground-truth example scores 1/10 (below). -/
def cScore : Nat → ℚ := fun n => if n = 0 then 9 / 10 else 1 / 10

/-! ## Method table of the trainer classes in src/module/train.py -/

/-- The methods defined on `TrainerBase` and `Trainer` in
src/module/train.py (Python name resolution finds no others on the
instance). -/
def trainerMethods : List String :=
  [("__init__"), ("measure_time"), ("tokenize"), ("generate"), ("save_ckpt"),
   ("print_epoch"), ("get_losses"), ("train"), ("train_epoch"),
   ("valid_epoch")]

/-- The method calls `valid_epoch` makes on `self` for every validation
batch, paired with the number of positional arguments passed (besides
`self`): `self.update_inputs(batch)` and `self.get_losses()`. -/
def validEpochBatchCalls : List (String × Nat) :=
  [(("update_inputs"), 1), (("get_losses"), 0)]

/-- The number of required positional parameters (besides `self`) of
`Trainer.get_losses`, namely `batch`. -/
def getLossesParamCount : Nat := 1

/-- The instance attributes assigned (`self.name = ...`) in
`TrainerBase.__init__` and `Trainer.__init__` of src/module/train.py;
Python attribute lookup on a `Trainer` instance resolves exactly these
names and the methods of `trainerMethods`. -/
def trainerAttributes : List String :=
  [("mode"), ("clip"), ("device"), ("max_len"), ("n_epochs"),
   ("device_type"), ("scaler"), ("iters_to_accumulate"), ("early_stop"),
   ("patience"), ("g_model"), ("d_model"), ("g_tokenizer"), ("d_tokenizer"),
   ("train_dataloader"), ("valid_dataloader"), ("g_optimizer"),
   ("d_optimizer"), ("g_scheduler"), ("d_scheduler"), ("g_ckpt"),
   ("d_ckpt"), ("record_path"), ("record_keys")]

/-- The attribute names the step block of `train_epoch` (lines 215-228)
dereferences on `self` besides `scaler` and `clip`:
`self.gen_optimizer`, `self.dis_optimizer`, `self.generator`,
`self.discriminator`. -/
def trainEpochStepReads : List String :=
  [("gen_optimizer"), ("dis_optimizer"), ("generator"), ("discriminator")]

/-- The local variables `train_epoch` binds in its body before or inside
the batch loop: `g_epoch_loss`, `d_epoch_loss`, `tot_len`, `idx`, `batch`,
`g_loss`, `d_loss`. -/
def trainEpochLocals : List String :=
  [("g_epoch_loss"), ("d_epoch_loss"), ("tot_len"), ("idx"), ("batch"),
   ("g_loss"), ("d_loss")]

/-- The local names the per-batch loss accumulation of `train_epoch`
(lines 230-231) reads on their left-hand side:
`gen_epoch_loss += ...`, `dis_epoch_loss += ...`. -/
def trainEpochAccumReads : List String :=
  [("gen_epoch_loss"), ("dis_epoch_loss")]

/-- The record keys `self.record_keys` assigned in `Trainer.__init__`:
the keys of every per-epoch record dict. -/
def recordKeys : List String :=
  [("epoch"), ("g_train_loss"), ("g_valid_loss"), ("d_train_loss"),
   ("d_valid_loss"), ("g_lr"), ("d_lr"), ("epoch_time")]

/-- Python dict value lookup; `none` models a `KeyError`. -/
def pyDictGet {V : Type} (d : List (String × V)) (key : String) : Option V :=
  (d.find? (fun p => p.1 == key)).map (fun p => p.2)

/-- The per-epoch record dict built by `Trainer.train`:
`record_dict = {k: v for k, v in zip(self.record_keys, record_vals)}`. -/
def mkRecordDict {V : Type} (vals : List V) : List (String × V) :=
  recordKeys.zip vals

/-! ## Theorems about the data side -/

/-- Claim C10: in pretrain mode, `load_data` partitions the character file at
`data_threshold`: the train split is exactly the first `threshold` records,
the valid split is exactly the rest, and for every threshold between 0 and
the file length the two splits concatenate back to the whole file (so they
are positionally disjoint). -/
theorem load_data_pretrain_partition {α : Type} (threshold : Nat) (d : List α)
    (h : threshold ≤ d.length) :
    load_data pretrainMode threshold d trainSplit = d.take threshold
    ∧ load_data pretrainMode threshold d validSplit = d.drop threshold
    ∧ (load_data pretrainMode threshold d trainSplit).length = threshold
    ∧ load_data pretrainMode threshold d trainSplit
        ++ load_data pretrainMode threshold d validSplit = d := by
  refine ⟨?_, ?_, ?_, ?_⟩
  · simp [load_data, pretrainMode, trainSplit, validSplit]
  · simp [load_data, pretrainMode, trainSplit, validSplit]
  · simp [load_data, pretrainMode, trainSplit, validSplit, h]
  · simp [load_data, pretrainMode, trainSplit, validSplit]

/-- Witness for C10 at a concrete file of three records and threshold 2. -/
theorem load_data_pretrain_partition_witness :
    2 ≤ ([10, 20, 30] : List Nat).length
    ∧ (load_data pretrainMode 2 [10, 20, 30] trainSplit = [10, 20]
      ∧ load_data pretrainMode 2 [10, 20, 30] validSplit = [30]
      ∧ (load_data pretrainMode 2 ([10, 20, 30] : List Nat) trainSplit).length = 2
      ∧ load_data pretrainMode 2 [10, 20, 30] trainSplit
          ++ load_data pretrainMode 2 [10, 20, 30] validSplit = [10, 20, 30]) :=
  ⟨by decide, load_data_pretrain_partition 2 [10, 20, 30] (by decide)⟩

/-! ## Helper lemmas about the discriminator batch -/

theorem dLabels_eq_zero_iff {B : Nat} (i : Fin (2 * B)) :
    dLabels B i = 0 ↔ (i : Nat) < B := by
  unfold dLabels dConcat
  by_cases h : (i : Nat) < B <;> simp [h]

theorem dLabels_eq_one_iff {B : Nat} (i : Fin (2 * B)) :
    dLabels B i = 1 ↔ ¬ (i : Nat) < B := by
  unfold dLabels dConcat
  by_cases h : (i : Nat) < B <;> simp [h]

theorem card_filter_lower {B : Nat} :
    (Finset.univ.filter (fun i : Fin (2 * B) => (i : Nat) < B)).card = B := by
  have key : (Finset.univ.filter (fun i : Fin (2 * B) => (i : Nat) < B))
      = Finset.attachFin (Finset.range B)
          (fun m hm => by simp only [Finset.mem_range] at hm; omega) := by
    ext i
    simp [Finset.mem_attachFin]
  rw [key, Finset.card_attachFin, Finset.card_range]

theorem multiset_map_perm {n : Nat} {γ : Type} (σ : Equiv.Perm (Fin n))
    (f : Fin n → γ) :
    Finset.univ.val.map (fun i => f (σ i)) = Finset.univ.val.map f := by
  have h1 : (fun i => f (σ i)) = f ∘ ⇑σ := rfl
  rw [h1, ← Multiset.map_map, Multiset.map_univ_val_equiv]

theorem filter_perm_card {n : Nat} (σ : Equiv.Perm (Fin n)) (P : Fin n → Prop)
    [DecidablePred P] :
    (Finset.univ.filter (fun i => P (σ i))).card
      = (Finset.univ.filter P).card := by
  refine Finset.card_bij' (fun a _ => σ a) (fun b _ => σ.symm b) ?_ ?_ ?_ ?_
  · intro a ha
    simp only [Finset.mem_filter, Finset.mem_univ, true_and] at ha ⊢
    exact ha
  · intro b hb
    simp only [Finset.mem_filter, Finset.mem_univ, true_and] at hb ⊢
    simpa using hb
  · intro a _
    simp
  · intro b _
    simp

theorem upper_filter_card {α : Type} (B : Nat) (fake real : Fin B → α)
    (Q : α → Prop) [DecidablePred Q] :
    (Finset.univ.filter (fun i : Fin (2 * B) =>
        dLabels B i = 1 ∧ Q (dConcat B fake real i))).card
      = (Finset.univ.filter (fun j : Fin B => Q (real j))).card := by
  have key : (Finset.univ.filter (fun i : Fin (2 * B) =>
        dLabels B i = 1 ∧ Q (dConcat B fake real i)))
      = Finset.map
          ⟨fun j : Fin B => (⟨B + (j : Nat), by omega⟩ : Fin (2 * B)), by
            intro a b hab
            have h2 : B + (a : Nat) = B + (b : Nat) := congrArg Fin.val hab
            exact Fin.ext (by omega)⟩
          (Finset.univ.filter (fun j : Fin B => Q (real j))) := by
    ext i
    simp only [Finset.mem_filter, Finset.mem_univ, true_and, Finset.mem_map,
      Function.Embedding.coeFn_mk]
    constructor
    · rintro ⟨hl, hq⟩
      have hge : ¬ (i : Nat) < B := (dLabels_eq_one_iff i).mp hl
      have hc : dConcat B fake real i = real ⟨(i : Nat) - B, by omega⟩ := by
        unfold dConcat
        simp [hge]
      refine ⟨⟨(i : Nat) - B, by omega⟩, ?_, ?_⟩
      · rw [← hc]
        exact hq
      · refine Fin.ext ?_
        show B + ((i : Nat) - B) = (i : Nat)
        omega
    · rintro ⟨j, hq, hji⟩
      have hval : (i : Nat) = B + (j : Nat) := by
        rw [← hji]
      have hge : ¬ (i : Nat) < B := by omega
      have hc : dConcat B fake real i = real ⟨(i : Nat) - B, by omega⟩ := by
        unfold dConcat
        simp [hge]
      refine ⟨(dLabels_eq_one_iff i).mpr hge, ?_⟩
      rw [hc]
      have hjj : (⟨(i : Nat) - B, by omega⟩ : Fin B) = j := by
        refine Fin.ext ?_
        show (i : Nat) - B = (j : Nat)
        omega
      rw [hjj]
      exact hq
  rw [key, Finset.card_map]

/-- Claim C8 (code evaluated at the failing input): a record as actually
produced by `process_dialogue_data` in src/setup.py carries the keys `x` and
`y`, so `Dataset.__getitem__` finds neither `uttr` nor `resp` in it (a
KeyError at item-access time), while `load_data` performs no validation at
all and hands the malformed record through to the training iteration. -/
theorem malformed_record_passes_load :
    datasetGetItem (mkDialogueRecord ("hi") ("hello")) = none
    ∧ lookupField (mkDialogueRecord ("hi") ("hello")) ("uttr") = none
    ∧ load_data pretrainMode 1 [mkDialogueRecord ("hi") ("hello")] trainSplit
        = [mkDialogueRecord ("hi") ("hello")] := by
  refine ⟨rfl, rfl, ?_⟩
  simp [load_data, pretrainMode, trainSplit]

/-- Claim C9 counterexample: in plain training mode (`config.mode = "train"`)
the mode string is truthy, so `load_dataloader` disables shuffling, while the
claim requires shuffling to be enabled there. -/
theorem shuffle_disabled_in_train_mode :
    load_dataloader_shuffle trainSplit = false
    ∧ spec_shuffle trainSplit = true := by
  exact ⟨rfl, rfl⟩

/-- Claim C9 (amended): `load_dataloader` enables shuffling exactly when
`config.mode` is falsy (the empty string); every non-empty mode value —
including plain training mode — disables shuffling. -/
theorem shuffle_iff_mode_falsy (mode : String) :
    load_dataloader_shuffle mode = (mode == ("")) := by
  by_cases h : mode = ""
  · subst h; rfl
  · have hb : (mode == ("")) = false := by
      simp [h]
    simp [load_dataloader_shuffle, pyTruthy, hb]

/-- Claim C6: the discriminator batch built by `get_losses` has, before the
shuffle, exactly `B` fake labels (the generated half) and exactly `B` real
labels (the ground-truth half) on its `2 * B` positions, and the single
random permutation applied jointly to input ids, attention masks and labels
is a bijection: the multiset of (ids, mask, label) triples is invariant
under the shuffle. -/
theorem discriminator_batch_invariants {α β : Type} (B : Nat)
    (fakeIds realIds : Fin B → α) (fakeMasks realMasks : Fin B → β)
    (σ : Equiv.Perm (Fin (2 * B))) :
    (Finset.univ.filter (fun i : Fin (2 * B) => dLabels B i = 0)).card = B
    ∧ (Finset.univ.filter (fun i : Fin (2 * B) => dLabels B i = 1)).card = B
    ∧ pairsMultiset B (fun i => dConcat B fakeIds realIds (σ i))
        (fun i => dConcat B fakeMasks realMasks (σ i))
        (fun i => dLabels B (σ i))
      = pairsMultiset B (dConcat B fakeIds realIds)
          (dConcat B fakeMasks realMasks) (dLabels B) := by
  have h0 : (Finset.univ.filter (fun i : Fin (2 * B) => dLabels B i = 0)).card
      = B := by
    have he : (Finset.univ.filter (fun i : Fin (2 * B) => dLabels B i = 0))
        = (Finset.univ.filter (fun i : Fin (2 * B) => (i : Nat) < B)) := by
      ext i
      simp [dLabels_eq_zero_iff]
    rw [he, card_filter_lower]
  refine ⟨h0, ?_, ?_⟩
  · have hsplit := Finset.filter_card_add_filter_neg_card_eq_card
      (s := (Finset.univ : Finset (Fin (2 * B))))
      (fun i : Fin (2 * B) => dLabels B i = 0)
    have he : (Finset.univ.filter (fun i : Fin (2 * B) => dLabels B i = 1))
        = (Finset.univ.filter (fun i : Fin (2 * B) => ¬ dLabels B i = 0)) := by
      ext i
      simp only [Finset.mem_filter, Finset.mem_univ, true_and,
        dLabels_eq_one_iff, dLabels_eq_zero_iff]
    have hcard : (Finset.univ : Finset (Fin (2 * B))).card = 2 * B := by
      simp
    rw [he]
    omega
  · unfold pairsMultiset
    exact multiset_map_perm σ (fun i =>
      (dConcat B fakeIds realIds i, dConcat B fakeMasks realMasks i,
        dLabels B i))

/-- Evaluation of the code's count at the concrete batch: no ground-truth
example scores above the threshold, so the count inside the logarithm is 0. -/
theorem posCount_concrete :
    posCount 1 cFake cReal cScore (Equiv.refl (Fin (2 * 1))) = 0 := by
  unfold posCount
  rw [Finset.card_eq_zero, Finset.filter_eq_empty_iff]
  intro i _
  fin_cases i
  · simp [dLabels, dConcat]
  · norm_num [dLabels, dConcat, cFake, cReal, cScore, dThreshold]

/-- Evaluation of the claim's count at the concrete batch: the generated
example scores above the threshold, so the claim's count is 1. -/
theorem fakeAboveCount_concrete : fakeAboveCount 1 cFake cScore = 1 := by
  unfold fakeAboveCount
  have he : (Finset.univ.filter (fun j : Fin 1 => dThreshold < cScore (cFake j)))
      = Finset.univ := by
    rw [Finset.filter_eq_self]
    intro j _
    norm_num [cFake, cScore, dThreshold]
  rw [he]
  simp

/-- Claim C1 (amended): the generator loss returned by `get_losses` is
`-log(k / B)` where `k` counts the examples labeled real — the ground-truth
responses — whose discriminator score exceeds the 0.5 threshold (not the
fake, generator-produced examples), and this is independent of the random
shuffle. -/
theorem g_loss_counts_real_examples {α : Type} (B : Nat)
    (fake real : Fin B → α) (score : α → ℚ) (σ : Equiv.Perm (Fin (2 * B))) :
    posCount B fake real score σ = realAboveCount B real score
    ∧ gLossCode B fake real score σ
        = negLogTorch ((realAboveCount B real score : ℚ) / (B : ℚ)) := by
  have hcount : posCount B fake real score σ = realAboveCount B real score := by
    unfold posCount realAboveCount
    rw [filter_perm_card σ (fun i : Fin (2 * B) =>
      dLabels B i = 1 ∧ dThreshold < score (dConcat B fake real i))]
    exact upper_filter_card B fake real (fun a => dThreshold < score a)
  refine ⟨hcount, ?_⟩
  unfold gLossCode
  rw [hcount]

/-- Claim C1 counterexample: a batch of size 1 where the generated example
scores 9/10 (above threshold) and the ground-truth example scores 1/10
(below).  The claim's formula `-log(fake-above-threshold / B)` gives
`-log 1 = 0`, but the code returns `-log(real-above-threshold / B) =
-log 0 = +∞`. -/
theorem g_loss_claim_counterexample :
    gLossCode 1 cFake cReal cScore (Equiv.refl (Fin (2 * 1))) = ⊤
    ∧ gLossClaim 1 cFake cScore = 0
    ∧ gLossCode 1 cFake cReal cScore (Equiv.refl (Fin (2 * 1)))
        ≠ gLossClaim 1 cFake cScore := by
  have h0 := posCount_concrete
  have h1 := fakeAboveCount_concrete
  have hcode : gLossCode 1 cFake cReal cScore (Equiv.refl (Fin (2 * 1))) = ⊤ := by
    unfold gLossCode
    rw [h0]
    simp [negLogTorch]
  have hclaim : gLossClaim 1 cFake cScore = 0 := by
    unfold gLossClaim
    rw [h1]
    simp [negLogTorch, Real.log_one]
  refine ⟨hcode, hclaim, ?_⟩
  rw [hcode, hclaim]
  have hlt : (0 : EReal) < ⊤ := by
    rw [← EReal.coe_zero]
    exact EReal.coe_lt_top 0
  exact hlt.ne'

/-- Claim C2 (amended): whenever the count inside the generator-loss
logarithm is zero (the discriminator is never fooled — here: no real-labeled
example scores above the threshold), the loss is produced as the defined
value `+∞` without raising, and it is NOT a finite value: nothing clamps it
before it flows onward to gradient accumulation. -/
theorem g_loss_degenerate_infinite {α : Type} (B : Nat)
    (fake real : Fin B → α) (score : α → ℚ) (σ : Equiv.Perm (Fin (2 * B)))
    (h : posCount B fake real score σ = 0) :
    gLossCode B fake real score σ = ⊤
    ∧ ¬ gLossCode B fake real score σ < ⊤ := by
  have htop : gLossCode B fake real score σ = ⊤ := by
    unfold gLossCode
    rw [h]
    simp [negLogTorch]
  exact ⟨htop, by rw [htop]; exact lt_irrefl ⊤⟩

/-- Witness for the amended C2 at a concrete batch with zero count. -/
theorem g_loss_degenerate_infinite_witness :
    posCount 1 cFake cReal cScore (Equiv.refl (Fin (2 * 1))) = 0
    ∧ (gLossCode 1 cFake cReal cScore (Equiv.refl (Fin (2 * 1))) = ⊤
      ∧ ¬ gLossCode 1 cFake cReal cScore (Equiv.refl (Fin (2 * 1))) < ⊤) :=
  ⟨posCount_concrete,
    g_loss_degenerate_infinite 1 cFake cReal cScore (Equiv.refl (Fin (2 * 1)))
      posCount_concrete⟩

/-- Claim C2 counterexample: at a concrete batch where the count is zero the
generator loss the code produces is exactly `⊤` (positive infinity), which
is not below `⊤`, i.e. not the "large but finite penalty" the claim says
reaches gradient accumulation. -/
theorem g_loss_not_clamped_counterexample :
    gLossCode 1 cFake cReal cScore (Equiv.refl (Fin (2 * 1))) = ⊤
    ∧ ¬ gLossCode 1 cFake cReal cScore (Equiv.refl (Fin (2 * 1))) < ⊤ := by
  have h0 := posCount_concrete
  have htop : gLossCode 1 cFake cReal cScore (Equiv.refl (Fin (2 * 1))) = ⊤ := by
    unfold gLossCode
    rw [h0]
    simp [negLogTorch]
  exact ⟨htop, by rw [htop]; exact lt_irrefl ⊤⟩


/-! ## Theorem about valid_epoch -/

/-- Claim C7 (code evaluated at its failing point): for every validation
batch, `valid_epoch` calls `self.update_inputs(batch)` — but no method of
that name is defined on the trainer classes, so the first validation batch
raises AttributeError — and then calls `self.get_losses()` with zero
positional arguments although `get_losses` requires its `batch` argument,
so `valid_epoch` never performs the loss computation the claim describes. -/
theorem valid_epoch_calls_missing_method :
    (("update_inputs"), 1) ∈ validEpochBatchCalls
    ∧ ("update_inputs") ∉ trainerMethods
    ∧ ((("get_losses"), 0) ∈ validEpochBatchCalls ∧ 0 < getLossesParamCount) := by
  refine ⟨by decide, by decide, by decide, by decide⟩

/-! ## Theorems about the broken training loop (train and train_epoch) -/

theorem pyDictGet_zip_none {V : Type} (k : String) (keys : List String)
    (vals : List V) (h : k ∉ keys) :
    pyDictGet (keys.zip vals) k = none := by
  induction keys generalizing vals with
  | nil => rfl
  | cons key rest ih =>
    cases vals with
    | nil => rfl
    | cons v vs =>
      have h1 : ¬ key = k := by
        intro he
        exact h (by simp [he])
      have h2 : k ∉ rest := fun hm => h (List.mem_cons_of_mem _ hm)
      unfold pyDictGet
      rw [List.zip_cons_cons, List.find?_cons_of_neg]
      · exact ih vs h2
      · simp [h1]

/-- Claim C3 (code evaluated at its failing point): in `train_epoch`, the
step block dereferences `self.gen_optimizer`, `self.dis_optimizer`,
`self.generator` and `self.discriminator`, none of which is an attribute or
method of the trainer classes (the defined names are `g_optimizer`,
`d_optimizer`, `g_model`, `d_model`), and the per-batch loss accumulation
reads the never-bound locals `gen_epoch_loss`/`dis_epoch_loss` (the bound
ones are `g_epoch_loss`/`d_epoch_loss`).  So the first batch of every
epoch raises (UnboundLocalError, and AttributeError once the step
condition fires) and no optimizer step or gradient zeroing ever
executes. -/
theorem train_epoch_step_names_undefined :
    trainEpochStepReads.all
        (fun n => !(trainerAttributes.contains n)
          && !(trainerMethods.contains n)) = true
    ∧ trainEpochAccumReads.all
        (fun n => !(trainEpochLocals.contains n)) = true
    ∧ ("g_optimizer") ∈ trainerAttributes
    ∧ ("d_optimizer") ∈ trainerAttributes
    ∧ ("g_epoch_loss") ∈ trainEpochLocals
    ∧ ("d_epoch_loss") ∈ trainEpochLocals := by
  refine ⟨by decide, by decide, by decide, by decide, by decide, by decide⟩

/-- Claim C4 (code evaluated at its failing point): the checkpoint block of
`Trainer.train` is unreachable.  Beyond `train_epoch` crashing on its first
batch, `print_epoch` reads `record_dict['train_time']` although no such key
is in `record_keys` (the key is `epoch_time`), and `train` reads
`record_dict['gen_valid_loss']` and `record_dict['dis_valid_loss']`
although the record dict — built by zipping `record_keys` with the epoch
values — carries `g_valid_loss`/`d_valid_loss`; each lookup is a KeyError,
so the `best >= curr` comparisons never run and no checkpoint is ever
written. -/
theorem checkpoint_block_unreachable :
    ("train_time") ∉ recordKeys
    ∧ ("epoch_time") ∈ recordKeys
    ∧ (∀ vals : List ℚ,
        pyDictGet (mkRecordDict vals) ("gen_valid_loss") = none)
    ∧ (∀ vals : List ℚ,
        pyDictGet (mkRecordDict vals) ("dis_valid_loss") = none)
    ∧ ("g_valid_loss") ∈ recordKeys
    ∧ ("d_valid_loss") ∈ recordKeys := by
  refine ⟨by decide, by decide, ?_, ?_, by decide, by decide⟩
  · intro vals
    exact pyDictGet_zip_none _ recordKeys vals (by decide)
  · intro vals
    exact pyDictGet_zip_none _ recordKeys vals (by decide)

/-- Claim C5 (code evaluated at its failing point): the patience logic of
`Trainer.train` is unreachable.  Epoch 1 already crashes inside
`train_epoch` (unbound local `gen_epoch_loss`; undefined attribute
`gen_optimizer` once the step condition fires), and even past that the
improvement test's operand `g_curr_loss = record_dict['gen_valid_loss']`
is a KeyError, so no patience reset, decrement, break, or record-file
write ever happens. -/
theorem early_stop_logic_unreachable :
    ("gen_epoch_loss") ∉ trainEpochLocals
    ∧ ("gen_optimizer") ∉ trainerAttributes
    ∧ ("gen_optimizer") ∉ trainerMethods
    ∧ (∀ vals : List ℚ,
        pyDictGet (mkRecordDict vals) ("gen_valid_loss") = none)
    ∧ ("patience") ∈ trainerAttributes := by
  refine ⟨by decide, by decide, by decide, ?_, by decide⟩
  intro vals
  exact pyDictGet_zip_none _ recordKeys vals (by decide)
